import Mathlib

/-!
Verification of the rubeho_mapper_tz matching and grid pipeline
(src/notebooks/01_explore_districts.py and src/notebooks/02_create_grids.py).

Python strings are embedded as lists of Unicode code points (List Nat), so
that the source's str.strip() / str.upper() operations become explicit
recursive functions on lists.  Rationals stand for the floating-point
coordinates of the source; geometric polygons are embedded as subsets of
the real plane.
-/

/-- A Python string, as its list of Unicode code points. -/
abbrev PyStr := List Nat

/-- Embedding of the whitespace test used by Python str.strip():
space, tab, newline, carriage return, vertical tab, form feed. -/
def isSpaceCode (c : Nat) : Bool :=
  c = 32 || c = 9 || c = 10 || c = 13 || c = 11 || c = 12

/-- Embedding of Python str.upper() on a single ASCII code point:
codes 97..122 (a..z) are shifted down by 32 to A..Z, all else unchanged. -/
def upperCode (c : Nat) : Nat :=
  if 97 ≤ c ∧ c ≤ 122 then c - 32 else c

/-- Embedding of Python str.strip(): drop whitespace code points from both
ends of the string. -/
def pyStrip (s : PyStr) : PyStr :=
  ((s.dropWhile isSpaceCode).reverse.dropWhile isSpaceCode).reverse

/-- Embedding of Python str.upper(): uppercase every code point. -/
def pyUpper (s : PyStr) : PyStr := s.map upperCode

/-- strip-then-upper, as in str(x).strip().upper() in
create_ward_district_sets (01_explore_districts.py lines 373-379) and in
the ward_district_key construction (lines 430-434). -/
def pyNorm (s : PyStr) : PyStr := pyUpper (pyStrip s)

/-- The code points of the separator "||". -/
def sepBars : PyStr := [124, 124]

/-- The normalized composite match key
str(ward).strip().upper() + "||" + str(district).strip().upper()
(01_explore_districts.py lines 377 and 431-434). -/
def ward_district_key (ward dist : PyStr) : PyStr :=
  pyNorm ward ++ sepBars ++ pyNorm dist

/-- treatment_matches / control_matches
(01_explore_districts.py lines 391 and 394): the intersection of the
deduplicated program-location key set with the shapefile key set. -/
def location_matches (locs ward_keys : Finset PyStr) : Finset PyStr :=
  locs ∩ ward_keys

/-- treatment_missing / control_missing
(01_explore_districts.py lines 392 and 395): the set difference of the
deduplicated program-location key set with the shapefile key set. -/
def location_missing (locs ward_keys : Finset PyStr) : Finset PyStr :=
  locs \ ward_keys

/-- A fishnet grid cell as built by create_fishnet_grid
(02_create_grids.py lines 121-155): identifier, column and row indices,
cell size, and the axis-aligned square polygon
[(left,bottom),(right,bottom),(right,top),(left,top)]. -/
structure GridCell where
  grid_id : PyStr
  col : Nat
  row : Nat
  cell_size : ℚ
  left : ℚ
  bottom : ℚ
  right : ℚ
  top : ℚ
deriving DecidableEq

/-- Decimal representation of a natural number as code points, as produced
by Python str(): "0" for zero, otherwise the decimal digits most
significant first with no leading zeros. -/
def decRepr (n : Nat) : PyStr :=
  if n = 0 then [48] else (Nat.digits 10 n).reverse.map (fun d => 48 + d)

/-- Python format specifier 04d: the decimal representation left-padded
with the zero digit to a minimum width of 4 (wider numbers keep all their
digits). -/
def pad4 (n : Nat) : PyStr :=
  List.replicate (4 - (decRepr n).length) 48 ++ decRepr n

/-- The grid identifier string built at 02_create_grids.py line 145:
"G_" followed by the column index as 04d, an underscore, and the row
index as 04d (code points: G is 71, underscore is 95). -/
def mkGridId (i j : Nat) : PyStr :=
  [71, 95] ++ pad4 i ++ [95] ++ pad4 j

/-- One cell of the fishnet grid at column i, row j
(02_create_grids.py lines 135-145). -/
def mkGridCell (minx miny cell_size : ℚ) (i j : Nat) : GridCell :=
  { grid_id := mkGridId i j
    col := i
    row := j
    cell_size := cell_size
    left := minx + i * cell_size
    bottom := miny + j * cell_size
    right := minx + (i + 1) * cell_size
    top := miny + (j + 1) * cell_size }

/-- create_fishnet_grid (02_create_grids.py lines 121-155): compute
cols = int(ceil((maxx - minx) / cell_size)) and likewise rows, then emit
one square cell for every (i, j) with i below cols (outer loop) and j
below rows (inner loop).  int() applied to the ceiling of a negative
quotient yields a nonpositive number, for which range() is empty; this is
Int.toNat. -/
def create_fishnet_grid (minx miny maxx maxy cell_size : ℚ) : List GridCell :=
  let cols := (⌈(maxx - minx) / cell_size⌉).toNat
  let rows := (⌈(maxy - miny) / cell_size⌉).toNat
  (List.range cols).flatMap (fun i =>
    (List.range rows).map (fun j => mkGridCell minx miny cell_size i j))

/-- The numeric value encoded by a list of decimal-digit code points,
most significant first. -/
def valOfCodes (l : PyStr) : Nat :=
  l.foldl (fun a c => 10 * a + (c - 48)) 0

/-- The relation "t differs from s only by letter case and by leading or
trailing whitespace": t is surrounding whitespace around a core whose
uppercased code points agree with those of s. -/
def differs_only_case_or_ws (s t : PyStr) : Prop :=
  ∃ a c b, (∀ x ∈ a, isSpaceCode x = true) ∧ (∀ x ∈ b, isSpaceCode x = true) ∧
    t = a ++ c ++ b ∧ pyUpper c = pyUpper s

/-- A ward row of gdf_relevant before program-location flagging
(01_explore_districts.py line 420). -/
structure RelevantWard where
  ward_name : PyStr
  dist_name : PyStr
  reg_name : PyStr
deriving DecidableEq

/-- The code points of the string "none". -/
def strNone : PyStr := [110, 111, 110, 101]

/-- The code points of the string "treatment". -/
def strTreatment : PyStr := [116, 114, 101, 97, 116, 109, 101, 110, 116]

/-- The code points of the string "program_control". -/
def strProgramControl : PyStr :=
  [112, 114, 111, 103, 114, 97, 109, 95, 99, 111, 110, 116, 114, 111, 108]

/-- A ward row of gdf_relevant after flag assignment
(01_explore_districts.py lines 421-444). -/
structure FlaggedWard where
  ward_name : PyStr
  dist_name : PyStr
  reg_name : PyStr
  is_program_region : Bool
  is_adjacent_region : Bool
  is_treatment : Bool
  is_program_control : Bool
  program_location_type : PyStr
deriving DecidableEq

/-- Flag initialization (01_explore_districts.py lines 425-428):
is_treatment = False, is_program_control = False,
program_location_type = "none"; the two region flags were assigned just
before (lines 421-422) and are taken as inputs here. -/
def init_program_flags (ipr iar : Bool) (w : RelevantWard) : FlaggedWard :=
  ⟨w.ward_name, w.dist_name, w.reg_name, ipr, iar, false, false, strNone⟩

/-- The ward_district_key column (01_explore_districts.py lines 431-434). -/
def flagged_key (fw : FlaggedWard) : PyStr :=
  ward_district_key fw.ward_name fw.dist_name

/-- The treatment mask assignment (01_explore_districts.py lines 437-439):
rows whose key is in treatment_matches get is_treatment = True and
program_location_type = "treatment". -/
def apply_treatment_mask (tm : Finset PyStr) (fw : FlaggedWard) : FlaggedWard :=
  if flagged_key fw ∈ tm then
    { fw with is_treatment := true, program_location_type := strTreatment }
  else fw

/-- The control mask assignment (01_explore_districts.py lines 442-444),
executed after the treatment mask: rows whose key is in control_matches
get is_program_control = True and program_location_type =
"program_control"; is_treatment is left untouched and no exclusion of
already-flagged treatment rows is performed. -/
def apply_control_mask (cm : Finset PyStr) (fw : FlaggedWard) : FlaggedWard :=
  if flagged_key fw ∈ cm then
    { fw with is_program_control := true,
              program_location_type := strProgramControl }
  else fw

/-- The Ward Flagger on one row: initialization, then the treatment mask,
then the control mask (01_explore_districts.py lines 425-444). -/
def flag_program_locations (tm cm : Finset PyStr) (ipr iar : Bool)
    (w : RelevantWard) : FlaggedWard :=
  apply_control_mask cm (apply_treatment_mask tm (init_program_flags ipr iar w))

/-- A point of the planar (UTM) coordinate plane. -/
abbrev Pt := ℝ × ℝ

/-- The metric buffer of a polygon: all points within distance d of some
point of the polygon (shapely geometry.buffer(d) for d at least 0). -/
def bufferPts (s : Set Pt) (d : ℝ) : Set Pt :=
  setOf fun p => ∃ q ∈ s, dist p q ≤ d

/-- target_utm.geometry.buffer(buffer_distance).unary_union
(01_explore_districts.py line 150): every target region polygon is
buffered and the buffers are unioned. -/
def buffered_target_union (target_regions : Finset PyStr)
    (geom : PyStr → Set Pt) (d : ℝ) : Set Pt :=
  ⋃ r ∈ target_regions, bufferPts (geom r) d

/-- find_adjacent_regions (01_explore_districts.py lines 133-166): loop
over every dissolved region, skip regions already in target_regions, and
collect each region whose polygon intersects the buffered union of the
target region polygons.  geom maps a region name to its dissolved polygon,
embedded as a point set. -/
def find_adjacent_regions (target_regions : Finset PyStr)
    (all_regions : List PyStr) (geom : PyStr → Set Pt)
    (buffer_distance : ℝ) : Set PyStr :=
  setOf fun r => r ∈ all_regions ∧ r ∉ target_regions ∧
    (geom r ∩ buffered_target_union target_regions geom buffer_distance).Nonempty

/-- The point set of a grid cell polygon: the closed axis-aligned
rectangle with the cell's corners (02_create_grids.py lines 142-143). -/
def cellSet (c : GridCell) : Set Pt :=
  setOf fun p => (c.left : ℝ) ≤ p.1 ∧ p.1 ≤ (c.right : ℝ) ∧
    (c.bottom : ℝ) ≤ p.2 ∧ p.2 ≤ (c.top : ℝ)

/-- The grid filter (02_create_grids.py lines 170-171):
parent_grid_filtered keeps exactly the cells for which the prepared
study-area geometry's intersects test returns True. -/
def filter_grid_to_study_area (grid : List GridCell)
    (prepared_test : GridCell → Bool) : List GridCell :=
  grid.filter prepared_test

/-- A ward row as seen by the centroid spatial join
(02_create_grids.py line 186): names plus the three boolean flags. -/
structure WardRec where
  ward_name : PyStr
  dist_name : PyStr
  reg_name : PyStr
  is_treatment : Bool
  is_program_region : Bool
  is_adjacent_region : Bool
deriving DecidableEq

/-- The administrative attributes attached to one grid cell after the
left spatial join and the fillna(False) calls
(02_create_grids.py lines 184-197). -/
structure CellAdmin where
  ward_name : Option PyStr
  district : Option PyStr
  region : Option PyStr
  is_treatment_ward : Bool
  is_program_region : Bool
  is_adjacent_region : Bool
deriving DecidableEq

/-- The attribute record of a cell whose centroid fell in no ward: NaN
names and, after fillna(False), false flags. -/
def null_admin : CellAdmin := ⟨none, none, none, false, false, false⟩

/-- The centroid of a grid cell (02_create_grids.py line 180). -/
def centroid (c : GridCell) : ℚ × ℚ :=
  ((c.left + c.right) / 2, (c.bottom + c.top) / 2)

/-- The left spatial join with predicate within followed by fillna(False)
on the three flags (02_create_grids.py lines 184-197): a centroid is
joined against the ward whose polygon contains it (within is the
point-in-polygon test, a parameter of the embedding); an unmatched
centroid produces NaN attributes, which fillna turns into false flags,
with no error raised. -/
def sjoin_admin (within : ℚ × ℚ → WardRec → Bool) (wards : List WardRec)
    (p : ℚ × ℚ) : CellAdmin :=
  match wards.find? (fun w => within p w) with
  | none => null_admin
  | some w => ⟨some w.ward_name, some w.dist_name, some w.reg_name,
      w.is_treatment, w.is_program_region, w.is_adjacent_region⟩

/-- A Python exception as raised by the pipeline scripts: a NameError
carrying the undefined variable name, or a FileNotFoundError carrying its
message. -/
inductive PyRunError where
  | nameErr (varName : String)
  | fileNotFound (msg : String)
deriving DecidableEq

/-- Outcome of running one notebook stage: the exception it raised (if
any), whether it executed further top-level statements after detecting a
missing input file, and whether it wrote its output files. -/
structure StageResult where
  raised : Option PyRunError
  continuedPastMissingFile : Bool
  wroteOutputs : Bool
deriving DecidableEq

/-- The expected path of the flagged-wards file
(02_create_grids.py line 83). -/
def relevant_wards_file : String :=
  "data/processed/relevant_wards_with_flags.geojson"

/-- Control flow of 01_explore_districts.py as a function of which input
files exist.  If the Excel file is missing (lines 88-92) the script only
prints a diagnostic, keeps executing (it lists the raw-data directory and
moves to the next cell), and first fails at line 93 where df_program is
unbound, raising NameError.  If the Excel file exists but no .shp file is
found (lines 40-62) the script prints a diagnostic, executes the whole
Excel section, and first fails at line 102 where gdf_wards is unbound,
raising NameError.  Only when both inputs exist does the script reach the
writes at lines 605-724. -/
def runStage01 (shpExists excelExists : Bool) : StageResult :=
  if excelExists then
    if shpExists then
      ⟨none, false, true⟩
    else
      ⟨some (PyRunError.nameErr "gdf_wards"), true, false⟩
  else
    ⟨some (PyRunError.nameErr "df_program"), true, false⟩

/-- Control flow of 02_create_grids.py as a function of whether the
flagged-wards file exists (lines 85-97): when the file is missing the
script prints the directory listing and immediately raises
FileNotFoundError with a message naming the missing path, executing no
further pipeline step and writing nothing. -/
def runStage02 (relevantWardsExists : Bool) : StageResult :=
  if relevantWardsExists then
    ⟨none, false, true⟩
  else
    ⟨some (PyRunError.fileNotFound
        ("Required file not found: " ++ relevant_wards_file)), false, false⟩

theorem foldr_shift_eq_ofDigits (l : List Nat) :
    l.foldr (fun d a => 10 * a + d) 0 = Nat.ofDigits 10 l := by
  induction l with
  | nil => rfl
  | cons d t ih =>
      simp only [List.foldr_cons, ih, Nat.ofDigits_cons]
      omega

theorem valOfCodes_decRepr (n : Nat) : valOfCodes (decRepr n) = n := by
  by_cases h0 : n = 0
  · subst h0; rfl
  · unfold valOfCodes decRepr
    rw [if_neg h0, List.foldl_map, List.foldl_reverse]
    have h1 : (fun (x : Nat) (y : Nat) => 10 * y + (48 + x - 48)) =
        (fun d a => 10 * a + d) := by
      funext x y
      omega
    rw [h1, foldr_shift_eq_ofDigits, Nat.ofDigits_digits]

theorem foldl_val_replicate_zero (k : Nat) :
    List.foldl (fun a c => 10 * a + (c - 48)) 0 (List.replicate k 48) = 0 := by
  induction k with
  | zero => rfl
  | succ k ih => simpa [List.replicate_succ] using ih

theorem valOfCodes_pad4 (n : Nat) : valOfCodes (pad4 n) = n := by
  unfold pad4 valOfCodes
  rw [List.foldl_append, foldl_val_replicate_zero]
  exact valOfCodes_decRepr n

theorem pad4_inj {m n : Nat} (h : pad4 m = pad4 n) : m = n := by
  have := congrArg valOfCodes h
  rwa [valOfCodes_pad4, valOfCodes_pad4] at this

theorem pad4_no_sep {n : Nat} : ∀ x ∈ pad4 n, x ≠ 95 := by
  intro x hx
  unfold pad4 at hx
  rcases List.mem_append.mp hx with h | h
  · have := List.eq_of_mem_replicate h
    omega
  · unfold decRepr at h
    by_cases h0 : n = 0
    · rw [if_pos h0] at h
      simp only [List.mem_singleton] at h
      omega
    · rw [if_neg h0] at h
      rcases List.mem_map.mp h with ⟨d, hd, rfl⟩
      have : d < 10 :=
        Nat.digits_lt_base (by norm_num) (List.mem_reverse.mp hd)
      omega

theorem append_sep_cancel :
    ∀ (a1 a2 b1 b2 : PyStr), (∀ x ∈ a1, x ≠ 95) → (∀ x ∈ a2, x ≠ 95) →
      a1 ++ 95 :: b1 = a2 ++ 95 :: b2 → a1 = a2 ∧ b1 = b2 := by
  intro a1
  induction a1 with
  | nil =>
      intro a2 b1 b2 _ h2 h
      cases a2 with
      | nil => simpa using h
      | cons y t =>
          simp only [List.nil_append, List.cons_append, List.cons.injEq] at h
          exact absurd h.1.symm (h2 y (List.mem_cons_self y t))
  | cons x t ih =>
      intro a2 b1 b2 h1 h2 h
      cases a2 with
      | nil =>
          simp only [List.nil_append, List.cons_append, List.cons.injEq] at h
          exact absurd h.1 (h1 x (List.mem_cons_self x t))
      | cons y t2 =>
          simp only [List.cons_append, List.cons.injEq] at h
          obtain ⟨hxy, htail⟩ := h
          obtain ⟨he, hb⟩ := ih t2 b1 b2
            (fun z hz => h1 z (List.mem_cons_of_mem x hz))
            (fun z hz => h2 z (List.mem_cons_of_mem y hz)) htail
          exact ⟨by rw [hxy, he], hb⟩

theorem mkGridId_inj {i1 j1 i2 j2 : Nat}
    (h : mkGridId i1 j1 = mkGridId i2 j2) : i1 = i2 ∧ j1 = j2 := by
  unfold mkGridId at h
  simp only [List.cons_append, List.nil_append, List.singleton_append,
    List.cons.injEq, true_and] at h
  have h' : pad4 i1 ++ 95 :: pad4 j1 = pad4 i2 ++ 95 :: pad4 j2 := by
    simpa using h
  obtain ⟨hi, hj⟩ := append_sep_cancel _ _ _ _ pad4_no_sep pad4_no_sep h'
  exact ⟨pad4_inj hi, pad4_inj hj⟩

theorem mem_create_fishnet_grid {minx miny maxx maxy S : ℚ} {c : GridCell} :
    c ∈ create_fishnet_grid minx miny maxx maxy S ↔
      ∃ i < (⌈(maxx - minx) / S⌉).toNat, ∃ j < (⌈(maxy - miny) / S⌉).toNat,
        c = mkGridCell minx miny S i j := by
  simp only [create_fishnet_grid, List.mem_flatMap, List.mem_map,
    List.mem_range]
  constructor
  · rintro ⟨i, hi, j, hj, rfl⟩
    exact ⟨i, hi, j, hj, rfl⟩
  · rintro ⟨i, hi, j, hj, rfl⟩
    exact ⟨i, hi, j, hj, rfl⟩

/-- Claim C3: for every bounding rectangle and every positive cell size S,
the unfiltered fishnet grid has exactly ceil(W/S) * ceil(H/S) cells; every
cell is an axis-aligned square of side exactly S (edge cells are not
clipped), and the tiling starts at the minimum corner (minx, miny): cell
(i, j) has its lower-left corner at (minx + i*S, miny + j*S), and when the
rectangle is nondegenerate the cell with indices (0, 0) sits exactly at
(minx, miny). -/
theorem fishnet_grid_tiling (minx miny maxx maxy S : ℚ)
    (hS : 0 < S) (_hx : minx ≤ maxx) (_hy : miny ≤ maxy) :
    (create_fishnet_grid minx miny maxx maxy S).length
        = (⌈(maxx - minx) / S⌉).toNat * (⌈(maxy - miny) / S⌉).toNat
    ∧ (∀ c ∈ create_fishnet_grid minx miny maxx maxy S,
        c.right - c.left = S ∧ c.top - c.bottom = S ∧ c.cell_size = S ∧
        c.left = minx + c.col * S ∧ c.bottom = miny + c.row * S)
    ∧ (0 < maxx - minx → 0 < maxy - miny →
        ∃ c ∈ create_fishnet_grid minx miny maxx maxy S,
          c.col = 0 ∧ c.row = 0 ∧ c.left = minx ∧ c.bottom = miny) := by
  refine ⟨?_, ?_, ?_⟩
  · simp [create_fishnet_grid, List.length_flatMap, Function.comp_def,
      List.map_const', List.sum_replicate, smul_eq_mul]
  · intro c hc
    obtain ⟨i, _, j, _, rfl⟩ := mem_create_fishnet_grid.mp hc
    refine ⟨by simp [mkGridCell]; ring, by simp [mkGridCell]; ring,
      rfl, rfl, rfl⟩
  · intro hw hh
    have hcols : 0 < (⌈(maxx - minx) / S⌉).toNat := by
      have : (0 : ℚ) < (maxx - minx) / S := div_pos hw hS
      have h1 : (0 : ℤ) < ⌈(maxx - minx) / S⌉ := Int.ceil_pos.mpr this
      omega
    have hrows : 0 < (⌈(maxy - miny) / S⌉).toNat := by
      have : (0 : ℚ) < (maxy - miny) / S := div_pos hh hS
      have h1 : (0 : ℤ) < ⌈(maxy - miny) / S⌉ := Int.ceil_pos.mpr this
      omega
    refine ⟨mkGridCell minx miny S 0 0,
      mem_create_fishnet_grid.mpr ⟨0, hcols, 0, hrows, rfl⟩,
      rfl, rfl, by simp [mkGridCell], by simp [mkGridCell]⟩

/-- Witness for claim C3 at the concrete rectangle (0,0)-(10,7) with cell
size 3. -/
theorem fishnet_grid_tiling_witness :
    (create_fishnet_grid 0 0 10 7 3).length
        = (⌈((10 : ℚ) - 0) / 3⌉).toNat * (⌈((7 : ℚ) - 0) / 3⌉).toNat
    ∧ (∀ c ∈ create_fishnet_grid 0 0 10 7 3,
        c.right - c.left = 3 ∧ c.top - c.bottom = 3 ∧ c.cell_size = 3 ∧
        c.left = 0 + c.col * 3 ∧ c.bottom = 0 + c.row * 3)
    ∧ (0 < (10 : ℚ) - 0 → 0 < (7 : ℚ) - 0 →
        ∃ c ∈ create_fishnet_grid 0 0 10 7 3,
          c.col = 0 ∧ c.row = 0 ∧ c.left = 0 ∧ c.bottom = 0) :=
  fishnet_grid_tiling 0 0 10 7 3 (by norm_num) (by norm_num) (by norm_num)

/-- Claim C10: in every grid returned by create_fishnet_grid, each cell
carries grid_id "G_" ++ zero-padded col ++ "_" ++ zero-padded row built
from its own col and row indices, and all grid_id values in one grid are
pairwise distinct. -/
theorem fishnet_grid_ids_unique (minx miny maxx maxy S : ℚ) :
    (∀ c ∈ create_fishnet_grid minx miny maxx maxy S,
        c.grid_id = mkGridId c.col c.row)
    ∧ ((create_fishnet_grid minx miny maxx maxy S).map
        GridCell.grid_id).Nodup := by
  constructor
  · intro c hc
    obtain ⟨i, _, j, _, rfl⟩ := mem_create_fishnet_grid.mp hc
    rfl
  · have hmap : ((create_fishnet_grid minx miny maxx maxy S).map
        GridCell.grid_id)
        = ((List.range (⌈(maxx - minx) / S⌉).toNat) ×ˢ
           (List.range (⌈(maxy - miny) / S⌉).toNat)).map
            (fun p => mkGridId p.1 p.2) := by
      simp [create_fishnet_grid, SProd.sprod, List.product,
        List.map_flatMap, List.map_map, Function.comp_def, mkGridCell]
    rw [hmap]
    apply List.Nodup.map
    · intro p q hpq
      obtain ⟨h1, h2⟩ := mkGridId_inj hpq
      exact Prod.ext h1 h2
    · exact (List.nodup_range _).product (List.nodup_range _)

theorem upperCode_idem (c : Nat) : upperCode (upperCode c) = upperCode c := by
  by_cases h : 97 ≤ c ∧ c ≤ 122
  · have h1 : upperCode c = c - 32 := by unfold upperCode; exact if_pos h
    rw [h1]
    have h2 : ¬(97 ≤ c - 32 ∧ c - 32 ≤ 122) := by omega
    unfold upperCode
    exact if_neg h2
  · have h1 : upperCode c = c := by unfold upperCode; exact if_neg h
    rw [h1]
    exact h1

theorem isSpaceCode_upperCode (c : Nat) :
    isSpaceCode (upperCode c) = isSpaceCode c := by
  by_cases h : 97 ≤ c ∧ c ≤ 122
  · have h1 : upperCode c = c - 32 := by unfold upperCode; exact if_pos h
    rw [h1]
    have h2 : isSpaceCode (c - 32) = false := by
      simp only [isSpaceCode, Bool.or_eq_false_iff, decide_eq_false_iff_not]
      omega
    have h3 : isSpaceCode c = false := by
      simp only [isSpaceCode, Bool.or_eq_false_iff, decide_eq_false_iff_not]
      omega
    rw [h2, h3]
  · have h1 : upperCode c = c := by unfold upperCode; exact if_neg h
    rw [h1]

theorem pyUpper_idem (s : PyStr) : pyUpper (pyUpper s) = pyUpper s := by
  unfold pyUpper
  rw [List.map_map]
  exact List.map_congr_left (fun c _ => upperCode_idem c)

theorem pyStrip_pyUpper (s : PyStr) :
    pyStrip (pyUpper s) = pyUpper (pyStrip s) := by
  have hcomp : isSpaceCode ∘ upperCode = isSpaceCode :=
    funext (fun c => isSpaceCode_upperCode c)
  unfold pyStrip pyUpper
  rw [List.dropWhile_map, hcomp, ← List.map_reverse, List.dropWhile_map,
    hcomp, ← List.map_reverse]

theorem dropWhile_head_false {p : Nat → Bool} :
    ∀ {s x : _} {t : PyStr}, List.dropWhile p s = x :: t → p x = false := by
  intro s
  induction s with
  | nil => intro x t h; simp at h
  | cons y ys ih =>
      intro x t h
      rw [List.dropWhile_cons] at h
      by_cases hy : p y
      · rw [if_pos hy] at h
        exact ih h
      · rw [if_neg hy] at h
        cases h
        exact Bool.of_not_eq_true hy

theorem dropWhile_self (p : Nat → Bool) (l : PyStr) :
    List.dropWhile p (List.dropWhile p l) = List.dropWhile p l := by
  cases h : List.dropWhile p l with
  | nil => rfl
  | cons x t =>
      have hx := dropWhile_head_false h
      rw [List.dropWhile_cons, if_neg (by simp [hx])]

theorem pyStrip_no_ws_ends (s : PyStr) :
    List.dropWhile isSpaceCode (pyStrip s) = pyStrip s ∧
    List.dropWhile isSpaceCode (pyStrip s).reverse = (pyStrip s).reverse := by
  have hrev : (pyStrip s).reverse
      = List.dropWhile isSpaceCode (List.dropWhile isSpaceCode s).reverse := by
    unfold pyStrip
    rw [List.reverse_reverse]
  constructor
  · cases hps : pyStrip s with
    | nil => rfl
    | cons x r =>
        have h0 := List.takeWhile_append_dropWhile isSpaceCode
          (List.dropWhile isSpaceCode s).reverse
        have h1 : List.dropWhile isSpaceCode s
            = pyStrip s ++
              (List.takeWhile isSpaceCode
                (List.dropWhile isSpaceCode s).reverse).reverse := by
          conv_lhs => rw [← List.reverse_reverse
            (List.dropWhile isSpaceCode s), ← h0]
          rw [List.reverse_append]
          rfl
        rw [hps, List.cons_append] at h1
        have hx := dropWhile_head_false h1
        rw [List.dropWhile_cons, if_neg (by simp [hx])]
  · rw [hrev, dropWhile_self]

theorem pyStrip_idem (s : PyStr) : pyStrip (pyStrip s) = pyStrip s := by
  obtain ⟨h1, h2⟩ := pyStrip_no_ws_ends s
  show (((pyStrip s).dropWhile isSpaceCode).reverse.dropWhile
    isSpaceCode).reverse = pyStrip s
  rw [h1, h2, List.reverse_reverse]

theorem pyNorm_idem (s : PyStr) : pyNorm (pyNorm s) = pyNorm s := by
  unfold pyNorm
  rw [pyStrip_pyUpper, pyStrip_idem, pyUpper_idem]

theorem pyStrip_ws_padding (a b s : PyStr)
    (ha : ∀ x ∈ a, isSpaceCode x = true) (hb : ∀ x ∈ b, isSpaceCode x = true) :
    pyStrip (a ++ s ++ b) = pyStrip s := by
  unfold pyStrip
  rw [List.append_assoc, List.dropWhile_append_of_pos ha]
  cases h : List.dropWhile isSpaceCode s with
  | nil =>
      have hs : ∀ x ∈ s, isSpaceCode x :=
        List.dropWhile_eq_nil_iff.mp h
      rw [List.dropWhile_append_of_pos hs,
        List.dropWhile_eq_nil_iff.mpr hb]
  | cons x t =>
      have hds : List.dropWhile isSpaceCode (s ++ b)
          = List.dropWhile isSpaceCode s ++ b := by
        rw [List.dropWhile_append]
        simp [h]
      rw [hds, h, List.reverse_append,
        List.dropWhile_append_of_pos
          (fun y hy => hb y (List.mem_reverse.mp hy))]

theorem pyNorm_eq_of_variant {s t : PyStr}
    (h : differs_only_case_or_ws s t) : pyNorm t = pyNorm s := by
  obtain ⟨a, c, b, ha, hb, rfl, hc⟩ := h
  unfold pyNorm
  rw [pyStrip_ws_padding a b c ha hb, ← pyStrip_pyUpper, hc, pyStrip_pyUpper]

/-- Claim C6: composite-key normalization (uppercase of trimmed ward name,
"||", uppercase of trimmed district name) is idempotent — building the key
from already-normalized components returns the same key — and any
ward/district pair differing only in letter case or leading/trailing
whitespace yields the same normalized composite key. -/
theorem ward_district_key_normalization :
    (∀ w d : PyStr,
      ward_district_key (pyNorm w) (pyNorm d) = ward_district_key w d)
    ∧ (∀ w w2 d d2 : PyStr, differs_only_case_or_ws w w2 →
        differs_only_case_or_ws d d2 →
        ward_district_key w2 d2 = ward_district_key w d) := by
  constructor
  · intro w d
    unfold ward_district_key
    rw [pyNorm_idem, pyNorm_idem]
  · intro w w2 d d2 hw hd
    unfold ward_district_key
    rw [pyNorm_eq_of_variant hw, pyNorm_eq_of_variant hd]

/-- Witness for claim C6: the pair ("a", "d") and its variant
(" A", "D ") — differing in case and surrounding whitespace — produce the
same composite key. -/
theorem ward_district_key_normalization_witness :
    ward_district_key [32, 65] [68, 32] = ward_district_key [97] [100] :=
  ward_district_key_normalization.2 [97] [32, 65] [100] [68, 32]
    ⟨[32], [65], [], by decide, by decide, rfl, by decide⟩
    ⟨[], [68], [32], by decide, by decide, rfl, by decide⟩

/-- Counterexample to claim C1: a ward whose composite key is in both the
matched-treatment set and the matched-control set gets is_treatment = true
AND is_program_control = true (the claim asserts is_program_control =
false), and its program_location_type is "program_control" because the
control assignment runs last. -/
theorem ward_flagger_dual_match_cex :
    (flag_program_locations {ward_district_key [65] [66]}
        {ward_district_key [65] [66]} true false
        ⟨[65], [66], [82]⟩).is_treatment = true
    ∧ (flag_program_locations {ward_district_key [65] [66]}
        {ward_district_key [65] [66]} true false
        ⟨[65], [66], [82]⟩).is_program_control = true
    ∧ (flag_program_locations {ward_district_key [65] [66]}
        {ward_district_key [65] [66]} true false
        ⟨[65], [66], [82]⟩).program_location_type = strProgramControl := by
  decide

/-- Claim C1 amended: a ward whose key is in both matched sets has
is_treatment = true and is_program_control = true (control overwrites the
categorical program_location_type); is_treatment and is_program_control
are simultaneously true exactly on such doubly-matched wards, so they are
mutually exclusive only on wards whose key is not in both sets. -/
theorem ward_flagger_flags_iff (tm cm : Finset PyStr) (ipr iar : Bool)
    (w : RelevantWard) :
    ((flag_program_locations tm cm ipr iar w).is_treatment = true ∧
     (flag_program_locations tm cm ipr iar w).is_program_control = true)
    ↔ (ward_district_key w.ward_name w.dist_name ∈ tm ∧
       ward_district_key w.ward_name w.dist_name ∈ cm) := by
  by_cases h1 : ward_district_key w.ward_name w.dist_name ∈ tm <;>
    by_cases h2 : ward_district_key w.ward_name w.dist_name ∈ cm <;>
    simp [flag_program_locations, apply_treatment_mask, apply_control_mask,
      init_program_flags, flagged_key, h1, h2]

/-- Claim C5: with buffer distance at least 0, every non-program region
whose polygon shares at least one point with the union of the program
region polygons (touching counts) is included in the adjacent-region set;
a region with no contact with the buffered union is excluded; and no
program region is ever returned as adjacent. -/
theorem find_adjacent_regions_spec (target : Finset PyStr)
    (allR : List PyStr) (geom : PyStr → Set Pt) (d : ℝ) (hd : 0 ≤ d)
    (r : PyStr) :
    (r ∈ allR → r ∉ target → (geom r ∩ ⋃ t ∈ target, geom t).Nonempty →
      r ∈ find_adjacent_regions target allR geom d)
    ∧ (geom r ∩ buffered_target_union target geom d = ∅ →
      r ∉ find_adjacent_regions target allR geom d)
    ∧ (r ∈ target → r ∉ find_adjacent_regions target allR geom d) := by
  refine ⟨?_, ?_, ?_⟩
  · intro h1 h2 ⟨x, hxr, hxu⟩
    obtain ⟨t, ht, hxt⟩ := Set.mem_iUnion₂.mp hxu
    refine ⟨h1, h2, x, hxr, Set.mem_iUnion₂.mpr ⟨t, ht, ?_⟩⟩
    exact ⟨x, hxt, by rw [dist_self]; exact hd⟩
  · intro hempty hr
    exact Set.not_nonempty_empty (hempty ▸ hr.2.2)
  · intro ht hr
    exact hr.2.1 ht

/-- Witness for claim C5: program region "P" (code 80) and region "B"
(code 66) share the single point (0,0); with buffer distance 0, B is
reported adjacent. -/
theorem find_adjacent_regions_spec_witness :
    [66] ∈ find_adjacent_regions {[80]} [[80], [66]]
      (fun r => if r = [80] ∨ r = [66] then {((0 : ℝ), (0 : ℝ))} else ∅) 0 :=
  (find_adjacent_regions_spec {[80]} [[80], [66]]
      (fun r => if r = [80] ∨ r = [66] then {((0 : ℝ), (0 : ℝ))} else ∅)
      0 le_rfl [66]).1
    (by decide)
    (by decide)
    ⟨((0 : ℝ), (0 : ℝ)), by simp,
      Set.mem_iUnion₂.mpr ⟨[80], Finset.mem_singleton_self [80], by simp⟩⟩

/-- Claim C9: every ward of the flagged output set — those whose region is
in relevant_regions = program regions plus the adjacent regions computed
by find_adjacent_regions (01_explore_districts.py lines 419-422) — has
exactly one of is_program_region (region in program set) and
is_adjacent_region (region in adjacent set) true, because
find_adjacent_regions skips program regions. -/
theorem relevant_ward_region_flags_exclusive (target : Finset PyStr)
    (allR : List PyStr) (geom : PyStr → Set Pt) (d : ℝ) (w : RelevantWard)
    (hw : w.reg_name ∈ target ∨
      w.reg_name ∈ find_adjacent_regions target allR geom d) :
    Xor' (w.reg_name ∈ target)
      (w.reg_name ∈ find_adjacent_regions target allR geom d) := by
  rcases hw with h | h
  · exact Or.inl ⟨h, fun hadj => hadj.2.1 h⟩
  · exact Or.inr ⟨h, h.2.1⟩

/-- Witness for claim C9 at a ward in program region "P" (code 80). -/
theorem relevant_ward_region_flags_exclusive_witness :
    Xor' (([80] : PyStr) ∈ ({[80]} : Finset PyStr))
      (([80] : PyStr) ∈ find_adjacent_regions {[80]} [] (fun _ => ∅) 0) :=
  relevant_ward_region_flags_exclusive {[80]} [] (fun _ => ∅) 0
    ⟨[65], [66], [80]⟩ (Or.inl (by decide))

/-- Claim C7: when the prepared-geometry test decides exactly the
intersects predicate against the study-area polygon (the shapely
contract for prep), every cell kept by the filter intersects the study
area and every discarded cell does not. -/
theorem grid_filter_sound (study : Set Pt) (ptest : GridCell → Bool)
    (hp : ∀ c, ptest c = true ↔ (cellSet c ∩ study).Nonempty)
    (grid : List GridCell) (c : GridCell) :
    (c ∈ filter_grid_to_study_area grid ptest ↔
      c ∈ grid ∧ (cellSet c ∩ study).Nonempty)
    ∧ (c ∈ grid → c ∉ filter_grid_to_study_area grid ptest →
      ¬(cellSet c ∩ study).Nonempty) := by
  constructor
  · rw [filter_grid_to_study_area, List.mem_filter, hp]
  · intro hg hnf hne
    exact hnf (List.mem_filter.mpr ⟨hg, (hp c).mpr hne⟩)

theorem cellSet_nonempty_iff (c : GridCell) :
    (cellSet c).Nonempty ↔ c.left ≤ c.right ∧ c.bottom ≤ c.top := by
  constructor
  · rintro ⟨⟨x, y⟩, hx1, hx2, hy1, hy2⟩
    constructor
    · exact_mod_cast le_trans hx1 hx2
    · exact_mod_cast le_trans hy1 hy2
  · rintro ⟨h1, h2⟩
    refine ⟨((c.left : ℝ), (c.bottom : ℝ)), le_refl _, ?_, le_refl _, ?_⟩
    · show (c.left : ℝ) ≤ (c.right : ℝ)
      exact_mod_cast h1
    · show (c.bottom : ℝ) ≤ (c.top : ℝ)
      exact_mod_cast h2

/-- Witness for claim C7: the whole plane as study area, with the
prepared test deciding nonemptiness of the cell rectangle. -/
theorem grid_filter_sound_witness :
    (mkGridCell 0 0 1 0 0 ∈ filter_grid_to_study_area
        (create_fishnet_grid 0 0 1 1 1)
        (fun c => decide (c.left ≤ c.right ∧ c.bottom ≤ c.top)) ↔
      mkGridCell 0 0 1 0 0 ∈ create_fishnet_grid 0 0 1 1 1 ∧
        (cellSet (mkGridCell 0 0 1 0 0) ∩ Set.univ).Nonempty)
    ∧ (mkGridCell 0 0 1 0 0 ∈ create_fishnet_grid 0 0 1 1 1 →
      mkGridCell 0 0 1 0 0 ∉ filter_grid_to_study_area
        (create_fishnet_grid 0 0 1 1 1)
        (fun c => decide (c.left ≤ c.right ∧ c.bottom ≤ c.top)) →
      ¬(cellSet (mkGridCell 0 0 1 0 0) ∩ Set.univ).Nonempty) :=
  grid_filter_sound Set.univ
    (fun c => decide (c.left ≤ c.right ∧ c.bottom ≤ c.top))
    (fun c => by simp [Set.inter_univ, cellSet_nonempty_iff])
    (create_fishnet_grid 0 0 1 1 1) (mkGridCell 0 0 1 0 0)

/-- Claim C8: every surviving grid cell whose centroid lies within no ward
polygon receives null ward/district/region attributes and false for the
three boolean flags; sjoin_admin is a total function, so the join never
raises an error for such cells. -/
theorem centroid_join_no_ward (within : ℚ × ℚ → WardRec → Bool)
    (wards : List WardRec) (c : GridCell)
    (h : ∀ w ∈ wards, within (centroid c) w = false) :
    sjoin_admin within wards (centroid c) = null_admin := by
  unfold sjoin_admin
  rw [List.find?_eq_none.mpr (fun w hw => by simp [h w hw])]

/-- Witness for claim C8: a one-ward list whose within test rejects the
centroid of the cell at (0,0) with size 1. -/
theorem centroid_join_no_ward_witness :
    sjoin_admin (fun p _ => decide (p.1 < 0))
      [⟨[65], [66], [82], true, true, false⟩]
      (centroid (mkGridCell 0 0 1 0 0)) = null_admin :=
  centroid_join_no_ward (fun p _ => decide (p.1 < 0))
    [⟨[65], [66], [82], true, true, false⟩]
    (mkGridCell 0 0 1 0 0)
    (by intro w hw; norm_num [centroid, mkGridCell])

/-- Counterexample to claim C2: in the run of 01_explore_districts.py with
the ward shapefile missing and the spreadsheet present, the stage does
continue past the missing file (it runs the whole Excel-loading section
first) and the eventual fatal error is a NameError about the unbound
variable gdf_wards, not a message naming the missing shapefile path. -/
theorem missing_shapefile_continues_cex :
    (runStage01 false true).continuedPastMissingFile = true ∧
    (runStage01 false true).raised = some (PyRunError.nameErr "gdf_wards") ∧
    (runStage01 false true).wroteOutputs = false := by
  refine ⟨rfl, rfl, rfl⟩

/-- Claim C2 amended: every run with a missing required input aborts with
an exception before writing any output, but only stage 02's flagged-wards
check raises immediately — without continuing — with a message naming the
missing path; stage 01 prints a diagnostic, continues past the missing
file, and later aborts with a NameError that does not name the path. -/
theorem missing_input_aborts (shp excel rel : Bool) :
    ((shp = false ∨ excel = false) →
      (runStage01 shp excel).wroteOutputs = false ∧
      (runStage01 shp excel).raised ≠ none ∧
      (runStage01 shp excel).continuedPastMissingFile = true)
    ∧ (rel = false →
      runStage02 rel = ⟨some (PyRunError.fileNotFound
        ("Required file not found: " ++ relevant_wards_file)),
        false, false⟩) := by
  cases shp <;> cases excel <;> cases rel <;>
    simp [runStage01, runStage02]

/-- Witness for claim C2 (amended) at the run with the shapefile and the
flagged-wards file both missing. -/
theorem missing_input_aborts_witness :
    ((runStage01 false true).wroteOutputs = false ∧
      (runStage01 false true).raised ≠ none ∧
      (runStage01 false true).continuedPastMissingFile = true)
    ∧ runStage02 false = ⟨some (PyRunError.fileNotFound
        ("Required file not found: " ++ relevant_wards_file)),
        false, false⟩ :=
  ⟨(missing_input_aborts false true false).1 (Or.inl rfl),
   (missing_input_aborts false true false).2 rfl⟩

/-- Claim C4: in the Program Location Matcher, for any deduplicated
program-location key set L and any ward composite-key set W, the matched
set and missing set computed for each partition satisfy
matched union missing = L and matched intersect missing = empty;
no key is silently dropped. -/
theorem matcher_partition_complete (L W : Finset PyStr) :
    location_matches L W ∪ location_missing L W = L ∧
    location_matches L W ∩ location_missing L W = ∅ := by
  constructor
  · ext k
    simp only [location_matches, location_missing, Finset.mem_union,
      Finset.mem_inter, Finset.mem_sdiff]
    tauto
  · ext k
    simp only [location_matches, location_missing, Finset.mem_inter,
      Finset.mem_sdiff, Finset.not_mem_empty, iff_false]
    tauto
